import Mathlib

/-!
Verification of the intelligent mockup generation pipeline of the
etsy-pipeline repository.

The frontend source (React/TypeScript, Firestore-backed) is embedded
shallowly: the Firestore documents written by the components become Lean
structures, the handler functions become pure Lean functions over those
structures plus explicit state, and the string constants are copied
verbatim.  The Python/Temporal backend is not part of the source tree;
where a property depends on it, the orchestrator behaviour is modelled
from the specification and the defining comment says so.
-/

/-! ## Statuses and error kinds (frontend/src/types/index.ts, constants) -/

/-- Status of an intelligent mockup job, from the string union
`IntelligentMockupJobStatus` and the `INTELLIGENT_MOCKUP_STATUS` constant
object, in their insertion order: pending, processing, completed, failed,
retried. -/
inductive IMStatus
  | pending
  | processing
  | completed
  | failed
  | retried
deriving DecidableEq, Repr

/-- The string literal each status stands for in the source. -/
def IMStatus.str : IMStatus → String
  | .pending => "pending"
  | .processing => "processing"
  | .completed => "completed"
  | .failed => "failed"
  | .retried => "retried"

/-- The status strings accepted by the type guard `isIntelligentMockupJob`
(types file): `['pending', 'processing', 'completed', 'failed',
'retried'].includes(job.status)`. -/
def isValidIntelligentStatusString (s : String) : Bool :=
  (["pending", "processing", "completed", "failed", "retried"]).contains s

/-- Position of a status in the insertion order of
`INTELLIGENT_MOCKUP_STATUS`. -/
def statusIndex : IMStatus → Nat
  | .pending => 0
  | .processing => 1
  | .completed => 2
  | .failed => 3
  | .retried => 4

/-- The `INTELLIGENT_MOCKUP_ERRORS` constant object values (constants
file): the machine-readable error kinds the frontend knows. -/
def INTELLIGENT_MOCKUP_ERRORS : List String :=
  ["timeout", "detection_failed", "grpc_error", "unknown"]

/-- The structured error stored on a job document
(`IntelligentMockupJob.error`): `{ message, type, details? }`.  The kind
is kept as a raw string because Firestore data can carry kinds outside
the four declared ones; the helper below handles that case explicitly. -/
structure IMJobError where
  type : String
  message : String
  details : Option String := none
deriving DecidableEq, Repr

/-! ## Job documents (frontend/src/types/index.ts `IntelligentMockupJob`) -/

/-- A bounding box `[x1, y1, x2, y2]` as in `DetectedRegion.bbox`. -/
structure BBox where
  x1 : Nat
  y1 : Nat
  x2 : Nat
  y2 : Nat
deriving DecidableEq, Repr

/-- Area of a bounding box. -/
def BBox.area (b : BBox) : Nat := (b.x2 - b.x1) * (b.y2 - b.y1)

/-- A detected placement region (`DetectedRegion` in the types file):
label, confidence and bounding box. -/
structure DetectedRegion where
  label : String
  confidence : ℚ
  bbox : BBox
deriving DecidableEq, Repr

/-- An `intelligent_mockup_jobs` document.  Fields are the ones the
frontend type declares and the handlers write; `none` stands for a field
that is absent or explicitly null (both are falsy to the reading code). -/
structure IMJobDoc where
  status : IMStatus
  artwork_url : Option String := none
  mockup_template : Option String := none
  original_job_id : Option String := none
  sourcePrompt : Option String := none
  createdAt : Option Nat := none
  processingStartTime : Option Nat := none
  completionTime : Option Nat := none
  error : Option IMJobError := none
  resultUrl : Option String := none
  result_url : Option String := none
  detectedRegions : Option (List DetectedRegion) := none
  detected_regions : Option Nat := none
  selected_region : Option String := none
  retriedAt : Option Nat := none
deriving DecidableEq, Repr

/-! ## Error message helper
(frontend/src/utils/intelligentMockupHelpers.ts) -/

/-- Canned message for the `timeout` kind. -/
def timeoutKindMessage : String :=
  "Processing took too long. This can happen with complex images or high server load. Please try again or use a simpler template."

/-- Canned message for the `detection_failed` kind. -/
def detectionFailedKindMessage : String :=
  "AI couldn\x27t find suitable regions in the mockup template. Try using a template with clearer placement areas (like frames, t-shirts, or mugs)."

/-- Canned message for the `grpc_error` kind. -/
def grpcErrorKindMessage : String :=
  "Communication error with the AI service. This is usually temporary. Please wait a moment and try again."

/-- Canned message for the `unknown` kind. -/
def unknownKindMessage : String :=
  "An unexpected error occurred. Our team has been notified. Please try again later."

/-- The `errorMessages` record of `getIntelligentMockupErrorMessage`,
read at `error.type`: defined on exactly the four declared kinds,
`none` (JS `undefined`) elsewhere. -/
def errorMessagesLookup (t : String) : Option String :=
  if t = "timeout" then some timeoutKindMessage
  else if t = "detection_failed" then some detectionFailedKindMessage
  else if t = "grpc_error" then some grpcErrorKindMessage
  else if t = "unknown" then some unknownKindMessage
  else none

/-- `getIntelligentMockupErrorMessage`: missing error gives a fixed
message; otherwise `errorMessages[error.type] || error.message ||
errorMessages[UNKNOWN]` (JS `||` takes the first truthy value; the canned
messages are non-empty, and an empty `error.message` is falsy). -/
def getIntelligentMockupErrorMessage : Option IMJobError → String
  | none => "An unknown error occurred. Please try again."
  | some e =>
    match errorMessagesLookup e.type with
    | some m => m
    | none => if e.message ≠ "" then e.message else unknownKindMessage

/-- The status tag of `IntelligentMockupCard`:
`job.status.charAt(0).toUpperCase() + job.status.slice(1)`. -/
def capFirst (s : String) : String :=
  match s.data with
  | [] => ""
  | c :: cs => String.mk (c.toUpper :: cs)

/-- Text of the status tag shown on every intelligent mockup card. -/
def statusTagText (st : IMStatus) : String := capFirst st.str

/-- The `suggestions` record of `getErrorSuggestedActions`
(intelligentMockupHelpers), read at `error.type`: defined on exactly the
four declared kinds, `none` (JS `undefined`) elsewhere. -/
def suggestedActionsLookup (t : String) : Option (List String) :=
  if t = "timeout" then
    some ["Try using a smaller image", "Use a simpler mockup template",
      "Try again during off-peak hours"]
  else if t = "detection_failed" then
    some ["Use a mockup template with clear placement areas",
      "Try templates with frames, t-shirts, or product mockups",
      "Use the simple mockup option instead"]
  else if t = "grpc_error" then
    some ["Wait a few moments and retry", "Check your internet connection",
      "Try using the simple mockup option"]
  else if t = "unknown" then
    some ["Try again in a few minutes", "Use a different mockup template",
      "Contact support if the issue persists"]
  else none

/-- `getErrorSuggestedActions`: one fixed list for a missing error,
otherwise `suggestions[error.type] || suggestions[UNKNOWN]`. -/
def getErrorSuggestedActions : Option IMJobError → List String
  | none => ["Try again with a different template"]
  | some e =>
    match suggestedActionsLookup e.type with
    | some l => l
    | none => ["Try again in a few minutes", "Use a different mockup template",
        "Contact support if the issue persists"]

/-- The text nodes the failed-state branch of `IntelligentMockupCard`
renders for a job: the capitalized status tag of the card title, the
alert title Generation Failed, the error message from the helper, the
Suggestions heading with the suggested actions, the Retry and Help
button labels, and — only when `error.details` is present — the
Technical details summary with the stringified details.  Nothing in
this branch renders `error.type` itself. -/
def failedCardTexts (j : IMJobDoc) : List String :=
  [statusTagText j.status, "Generation Failed",
    getIntelligentMockupErrorMessage j.error, "Suggestions:"] ++
  getErrorSuggestedActions j.error ++ ["Retry", "Help"] ++
  (match j.error with
   | some e =>
     match e.details with
     | some d => ["Technical details", d]
     | none => []
   | none => [])

/-! ## Retry handler (DraftsTab `handleRetryIntelligentMockup`) -/

/-- The retry handler, as a pure function from the snapshot of the old
job (whose Firestore id is `oldId`) to the pair (updated old document,
newly created document).  The source destructures `const { id,
...jobData } = job`, updates the old document with only `status:
'retried'` and `retriedAt`, and creates a new document from `jobData`
overriding `status`, `createdAt`, `processingStartTime`,
`completionTime`, `error`, `resultUrl` and `detectedRegions`; every
other field, `original_job_id` and `result_url` included, is copied
unchanged, and `oldId` is used only to address the old document. -/
def handleRetryIntelligentMockup (oldId : String) (job : IMJobDoc) (now : Nat) :
    IMJobDoc × IMJobDoc :=
  ({ job with status := .retried, retriedAt := some now },
   { job with
      status := .pending
      createdAt := some now
      processingStartTime := none
      completionTime := none
      error := none
      resultUrl := none
      detectedRegions := none })
/-! ## Mockup generation submission (MockupButton `handleGenerateMockups`) -/

/-- A document of the `mockups` template collection, as the submission
handler uses it (only the document id is read). -/
structure TemplateDoc where
  id : String
deriving DecidableEq, Repr

/-- A `jobs` document (the `Job` interface of the types file), with the
fields relevant to the auto-approve side effect. -/
structure ArtJob where
  prompt : String
  status : String
  generatedImageUrl : Option String := none
  createdAt : Nat
  approved : Option Bool := none
  approvedAt : Option Nat := none
  error : Option String := none
deriving DecidableEq, Repr

/-- A `mockup_jobs` document as written by the simple path. -/
structure SimpleMockupJob where
  status : String
  sourceJobId : String
  sourceImageUrl : String
  sourcePrompt : String
  createdAt : Nat
deriving DecidableEq, Repr

/-- The `MockupType` union of the types file. -/
inductive MockupType
  | simple
  | intelligent
deriving DecidableEq, Repr

/-- What the submission handler reports: the two early-return error
paths, or a successful submission of the chosen kind. -/
inductive GenOutcome
  | noImageUrl
  | noTemplates
  | submitted (t : MockupType)
deriving DecidableEq, Repr

/-- The effects of one `handleGenerateMockups` call: documents appended
to the two job collections, the `jobs` store after the auto-approve
attempt, and the reported outcome. -/
structure GenEffects where
  newIntelligentJobs : List IMJobDoc
  newMockupJobs : List SimpleMockupJob
  jobs : String → Option ArtJob
  outcome : GenOutcome

/-- `MOCKUP_STATUS.PENDING` from the constants file. -/
def MOCKUP_STATUS_PENDING : String := "pending_mockup_generation"

/-- `JOB_STATUS.APPROVED` from the constants file. -/
def JOB_STATUS_APPROVED : String := "approved"

/-- `mockupsSnapshot.docs[0]?.id || 'default'`: the first template
document id, or the literal default when the id is missing or empty
(both falsy in JS). -/
def firstTemplateId (templates : List TemplateDoc) : String :=
  match templates.head? with
  | some t => if t.id = "" then "default" else t.id
  | none => "default"

/-- The `intelligentJobData` object literal the intelligent path passes
to `addDoc`: status pending, the artwork URL, the first template id,
the source art job id, the prompt, a fresh timestamp, and explicit
nulls for the processing, error and result fields. -/
def intelligentJobData (jobId imageUrl prompt : String)
    (templates : List TemplateDoc) (now : Nat) : IMJobDoc :=
  { status := .pending
    artwork_url := some imageUrl
    mockup_template := some (firstTemplateId templates)
    original_job_id := some jobId
    sourcePrompt := some prompt
    createdAt := some now
    processingStartTime := none
    completionTime := none
    error := none
    resultUrl := none
    detectedRegions := none }

/-- `updateDoc(doc(db, 'jobs', jobId), { status })`: a merge write that
touches only the status field of the addressed document; updating a
missing document throws, which the caller catches, so a missing
document stays missing. -/
def updateJobStatus (jobs : String → Option ArtJob) (jobId st : String) :
    String → Option ArtJob :=
  fun k => if k = jobId then (jobs jobId).map (fun j => { j with status := st }) else jobs k

/-- `handleGenerateMockups` as a pure function.  Guards in source order:
an unusable image URL (empty, the string undefined or the string null)
aborts, an empty template snapshot aborts; otherwise one job document of
the chosen kind is created, and then the source art job is auto-approved
inside its own try/catch, so a failing approve update (`approveFails`)
leaves the submission successful. -/
def handleGenerateMockups (jobId imageUrl prompt : String) (mockupType : MockupType)
    (templates : List TemplateDoc) (jobs : String → Option ArtJob)
    (now : Nat) (approveFails : Bool) : GenEffects :=
  if imageUrl = "" ∨ imageUrl = "undefined" ∨ imageUrl = "null" then
    ⟨[], [], jobs, .noImageUrl⟩
  else if templates = [] then
    ⟨[], [], jobs, .noTemplates⟩
  else
    let jobsAfter := if approveFails then jobs else updateJobStatus jobs jobId JOB_STATUS_APPROVED
    match mockupType with
    | .intelligent =>
      ⟨[intelligentJobData jobId imageUrl prompt templates now], [], jobsAfter,
        .submitted .intelligent⟩
    | .simple =>
      ⟨[], [⟨MOCKUP_STATUS_PENDING, jobId, imageUrl, prompt, now⟩], jobsAfter,
        .submitted .simple⟩

/-! ## Template upload (MockupTab `handleFileUpload`) -/

/-- A browser file as the upload handler sees it: name, MIME type,
size in bytes, and the raw byte content. -/
structure UploadFile where
  name : String
  type : String
  size : Nat
  content : List Nat
deriving DecidableEq, Repr

/-- `FILE_SIZE_LIMIT_MB` from the constants file. -/
def FILE_SIZE_LIMIT_MB : Nat := 10

/-- `FILE_SIZE_LIMIT_BYTES = FILE_SIZE_LIMIT_MB * 1024 * 1024`. -/
def FILE_SIZE_LIMIT_BYTES : Nat := FILE_SIZE_LIMIT_MB * 1024 * 1024

/-- `ALLOWED_FILE_TYPES` from the constants file. -/
def ALLOWED_FILE_TYPES : List String := ["image/jpeg", "image/png", "image/webp"]

/-- A `mockups` collection document as written by the upload handler:
display name, file name, download URL of the stored blob, timestamp.
No field of this document can hold byte content. -/
structure MockupTemplateDoc where
  name : String
  fileName : String
  imageUrl : String
  uploadedAt : Nat
deriving DecidableEq, Repr

/-- The state the upload handler touches: the blob store (path to raw
bytes) and the `mockups` metadata collection. -/
structure UploadState where
  storage : List (String × List Nat)
  docs : List MockupTemplateDoc
deriving DecidableEq, Repr

/-- The storage path built by the handler. -/
def storagePathFor (now : Nat) (f : UploadFile) : String :=
  "mockups/" ++ toString now ++ "_" ++ f.name

/-- The stable download URL `getDownloadURL` returns for a stored path. -/
def downloadURLFor (path : String) : String :=
  "https://firebasestorage.googleapis.com/" ++ path

/-- Characters before the first dot, the head chunk of a split at
dots. -/
def takeUntilDot : List Char → List Char
  | [] => []
  | c :: cs => if c = '.' then [] else c :: takeUntilDot cs

/-- `file.name.split('.')[0]`: the part of the name before the first
dot (the whole name when it has no dot). -/
def fileBaseName (name : String) : String := String.mk (takeUntilDot name.data)

/-- The validation performed per file, in source order: the MIME type
must be one of the allowed image formats, then the size must not exceed
the configured cap; on violation the handler throws the returned
message. -/
def validateUploadFile (f : UploadFile) : Option String :=
  if ¬ ALLOWED_FILE_TYPES.contains f.type then
    some ("File " ++ f.name ++ " must be JPEG, PNG, or WebP format")
  else if f.size > FILE_SIZE_LIMIT_BYTES then
    some ("File " ++ f.name ++ " is too large. Maximum size is " ++
      toString (FILE_SIZE_LIMIT_BYTES / (1024 * 1024)) ++ "MB")
  else
    none

/-- The metadata document the handler writes for one stored file. -/
def uploadedDocFor (now : Nat) (f : UploadFile) : MockupTemplateDoc :=
  { name := fileBaseName f.name
    fileName := f.name
    imageUrl := downloadURLFor (storagePathFor now f)
    uploadedAt := now }

/-- Storing one validated file: the bytes go to the blob store and the
metadata document referencing them by URL goes to the collection. -/
def storeUploadFile (now : Nat) (s : UploadState) (f : UploadFile) : UploadState :=
  { storage := s.storage ++ [(storagePathFor now f, f.content)]
    docs := s.docs ++ [uploadedDocFor now f] }

/-- `handleFileUpload` over the submitted file list: files are processed
in order; the first validation failure throws, which the surrounding
catch turns into the error banner, aborting the rest of the batch while
keeping everything already stored. -/
def handleFileUpload (now : Nat) (s : UploadState) :
    List UploadFile → UploadState × Option String
  | [] => (s, none)
  | f :: rest =>
    match validateUploadFile f with
    | some msg => (s, some ("Failed to upload: " ++ msg))
    | none => handleFileUpload now (storeUploadFile now s f) rest

/-! ## Status machine and the job record invariant -/

/-- The status transitions the program performs on an existing
intelligent mockup job document.  The first three are modelled from the
spec: the orchestrator (Python backend, not under the source tree)
claims a pending job, then completes or fails it.  The last two are the
frontend retry handler, invoked from the card only on a failed job
(Retry) or on a stuck processing job (Cancel and Retry); both mark the
old document retried. -/
inductive StatusStep : IMStatus → IMStatus → Prop
  | claim : StatusStep .pending .processing
  | complete : StatusStep .processing .completed
  | fail : StatusStep .processing .failed
  | retryFailed : StatusStep .failed .retried
  | cancelRetry : StatusStep .processing .retried

/-- Mutual exclusion of result and error on terminal statuses: a
completed job has a result reference and no error, a failed job has an
error and no result reference. -/
def resultErrorExclusive (j : IMJobDoc) : Prop :=
  (j.status = .completed → j.result_url.isSome ∧ j.error = none) ∧
  (j.status = .failed → j.error.isSome ∧ j.result_url = none)

/-- Well-formedness of a job document per the data model: the result
reference is set exactly on completed jobs and the error exactly on
failed jobs. -/
def wfJob (j : IMJobDoc) : Prop :=
  (j.result_url.isSome → j.status = .completed) ∧
  (j.error.isSome → j.status = .failed) ∧
  (j.status = .completed → j.result_url.isSome) ∧
  (j.status = .failed → j.error.isSome)

/-- Modelled from the spec: the orchestrator's claim of a pending job
(the backend workflow is not under the source tree).  It moves the job
to processing and records the start time. -/
def orchestratorClaim (j : IMJobDoc) (t : Nat) : IMJobDoc :=
  { j with status := .processing, processingStartTime := some t }

/-- Modelled from the spec: the orchestrator's terminal success write
(the backend workflow is not under the source tree).  The result
reference is written atomically with the completed status, and no error
is left on the document. -/
def orchestratorComplete (j : IMJobDoc) (ref : String) (t : Nat) : IMJobDoc :=
  { j with
      status := .completed
      result_url := some ref
      error := none
      completionTime := some t }

/-- Modelled from the spec: the orchestrator's terminal failure write
(the backend workflow is not under the source tree).  The structured
error is written with the failed status and no result reference. -/
def orchestratorFail (j : IMJobDoc) (e : IMJobError) (t : Nat) : IMJobDoc :=
  { j with
      status := .failed
      error := some e
      result_url := none
      completionTime := some t }

/-! ## Region detector and pipeline, modelled from the spec

The region detector, perspective transformer and compositor live in the
Python backend, which is not under the source tree (the development
guide only records that optimized versions add fallback detection for
generic rectangular regions).  The following definitions are modelled
from the specification, section 4.4 to 4.6. -/

/-- Modelled from the spec: a template as the detector sees it, either
undecodable or decodable with pixel bounds and the raw regions the
vision model reports on it (the detector adapter itself is not under
the source tree). -/
structure SpecTemplate where
  decodable : Bool
  width : Nat
  height : Nat
  regions : List DetectedRegion
deriving DecidableEq, Repr

/-- Modelled from the spec: the allow-list of placement-suitable labels
(frame, garment, screen, flat surface); the spec treats the exact list
as configuration. -/
def placementAllowList : List String := ["frame", "garment", "screen", "flat surface"]

/-- Modelled from the spec: the ranking order, higher confidence first,
ties broken by larger bounding box area. -/
def ranksBefore (a b : DetectedRegion) : Bool :=
  b.confidence < a.confidence ∨ (a.confidence = b.confidence ∧ b.bbox.area ≤ a.bbox.area)

/-- Insertion step of the ranking sort. -/
def insertRanked (r : DetectedRegion) : List DetectedRegion → List DetectedRegion
  | [] => [r]
  | x :: xs => if ranksBefore r x then r :: x :: xs else x :: insertRanked r xs

/-- Modelled from the spec: rank the candidate regions by confidence,
tie-break by larger area. -/
def rankRegions : List DetectedRegion → List DetectedRegion
  | [] => []
  | r :: rs => insertRanked r (rankRegions rs)

/-- Modelled from the spec: keep only regions whose label is on the
placement allow-list. -/
def filterAllowed (rs : List DetectedRegion) : List DetectedRegion :=
  rs.filter (fun r => placementAllowList.contains r.label)

/-- Modelled from the spec: the deterministic fallback region, the
largest centered rectangle lying `margin` pixels inside the template
bounds, labelled fallback. -/
def fallbackRegion (margin : Nat) (t : SpecTemplate) : DetectedRegion :=
  { label := "fallback"
    confidence := 0
    bbox := ⟨margin, margin, t.width - margin, t.height - margin⟩ }

/-- Modelled from the spec: the detector stage.  An undecodable template
is the only terminal detection failure; a decodable template with no
allow-listed region falls back to the centered rectangle instead of
failing. -/
def selectRegion (margin : Nat) (t : SpecTemplate) : Except String DetectedRegion :=
  if t.decodable then
    match rankRegions (filterAllowed t.regions) with
    | r :: _ => .ok r
    | [] => .ok (fallbackRegion margin t)
  else
    .error "detection_failed"

/-- Modelled from the spec: outcome of one orchestrated pipeline run. -/
inductive PipeResult
  | completed (selectedLabel : String) (resultRef : String)
  | failed (kind : String)
deriving DecidableEq, Repr

/-- Modelled from the spec: the stored result reference the compositor
publishes for a template and selected region. -/
def composeResultRef (t : SpecTemplate) (r : DetectedRegion) : String :=
  "results/" ++ toString t.width ++ "x" ++ toString t.height ++ "/" ++ r.label

/-- Modelled from the spec: one pipeline run over a template.  The
transform stage rejects a degenerate (zero area) region as a terminal
geometry error; otherwise the compositor publishes the result and the
job completes with the selected region's label. -/
def runPipeline (margin : Nat) (t : SpecTemplate) : PipeResult :=
  match selectRegion margin t with
  | .error e => .failed e
  | .ok r =>
    if r.bbox.area = 0 then .failed "invalid_geometry"
    else .completed r.label (composeResultRef t r)

/-! ## Claims -/

/-- C1, counterexample: retrying a terminal job does not set any
origin-reference on the new job to the old job's id.  For the failed job
with Firestore id `job-1` (whose `original_job_id` is the source art job
`art-1`), the job created by the retry carries `original_job_id =
art-1`, not `job-1`: the claim that the new Job's `originJobId` is set
to reference the old Job's id is false. -/
theorem c1_counterexample :
    (handleRetryIntelligentMockup "job-1"
      { status := .failed
        artwork_url := some "https://storage/art.png"
        original_job_id := some "art-1"
        error := some ⟨"timeout", "slow", none⟩ } 5).2.original_job_id = some "art-1" ∧
    (some "art-1" : Option String) ≠ some "job-1" := by
  exact ⟨rfl, by decide⟩

/-- C1, amended: a user-initiated retry marks the old job retried
without touching its terminal result and error fields, and creates a new
pending job whose inputs (artwork URL, template, prompt) are copied from
the old job; the new job's `original_job_id` is copied unchanged from
the old job (it keeps referencing the source art job), and no field of
the new job is set to the old job's id. -/
theorem c1_retry_amended (oldId : String) (job : IMJobDoc) (now : Nat) :
    ((handleRetryIntelligentMockup oldId job now).1.status = .retried) ∧
    ((handleRetryIntelligentMockup oldId job now).1.error = job.error) ∧
    ((handleRetryIntelligentMockup oldId job now).1.result_url = job.result_url) ∧
    ((handleRetryIntelligentMockup oldId job now).1.resultUrl = job.resultUrl) ∧
    ((handleRetryIntelligentMockup oldId job now).1.completionTime = job.completionTime) ∧
    ((handleRetryIntelligentMockup oldId job now).1.retriedAt = some now) ∧
    ((handleRetryIntelligentMockup oldId job now).2.status = .pending) ∧
    ((handleRetryIntelligentMockup oldId job now).2.artwork_url = job.artwork_url) ∧
    ((handleRetryIntelligentMockup oldId job now).2.mockup_template = job.mockup_template) ∧
    ((handleRetryIntelligentMockup oldId job now).2.sourcePrompt = job.sourcePrompt) ∧
    ((handleRetryIntelligentMockup oldId job now).2.original_job_id = job.original_job_id) := by
  exact ⟨rfl, rfl, rfl, rfl, rfl, rfl, rfl, rfl, rfl, rfl, rfl⟩

/-- C3: the status strings the program accepts are exactly the five
declared ones, in that insertion order every status transition the
program performs on an existing job document moves strictly forward, no
transition leaves the retried state, and the retry that follows a
terminal job always continues work through a fresh pending document
rather than reviving the old one. -/
theorem c3_status_machine :
    (∀ s : String, isValidIntelligentStatusString s = true ↔ ∃ st : IMStatus, st.str = s) ∧
    (∀ a b : IMStatus, StatusStep a b → statusIndex a < statusIndex b) ∧
    (∀ b : IMStatus, ¬ StatusStep .retried b) ∧
    (∀ oldId job now, ((handleRetryIntelligentMockup oldId job now).2).status = .pending) := by
  refine ⟨?_, ?_, ?_, ?_⟩
  · intro s
    constructor
    · intro h
      simp [isValidIntelligentStatusString] at h
      rcases h with h | h | h | h | h
      · exact ⟨.pending, h.symm⟩
      · exact ⟨.processing, h.symm⟩
      · exact ⟨.completed, h.symm⟩
      · exact ⟨.failed, h.symm⟩
      · exact ⟨.retried, h.symm⟩
    · rintro ⟨st, rfl⟩
      cases st <;> decide
  · intro a b h
    cases h <;> decide
  · intro b h
    nomatch h
  · intro oldId job now
    rfl

/-- C3, witness: the accepted-strings equivalence and the
strictly-forward property at concrete instances. -/
theorem c3_status_machine_witness :
    isValidIntelligentStatusString "retried" = true ∧
    statusIndex IMStatus.pending < statusIndex IMStatus.processing :=
  ⟨(c3_status_machine.1 "retried").2 ⟨IMStatus.retried, rfl⟩,
   c3_status_machine.2.1 IMStatus.pending IMStatus.processing StatusStep.claim⟩

/-- C2: the result reference and the error are mutually exclusive on
terminal jobs, and every job-document write preserves this.  An initial
submission creates a pending document with both unset; a retry invoked
by the program (only ever on a failed or stuck-processing job, so on a
non-completed well-formed document) creates a pending document with
both unset; and the orchestrator's terminal writes, modelled from the
spec because the backend is not under the source tree, establish
exactly one of the two together with the matching status. -/
theorem c2_result_error_exclusive :
    (∀ jobId imageUrl prompt templates now,
      (intelligentJobData jobId imageUrl prompt templates now).status = .pending ∧
      (intelligentJobData jobId imageUrl prompt templates now).result_url = none ∧
      (intelligentJobData jobId imageUrl prompt templates now).resultUrl = none ∧
      (intelligentJobData jobId imageUrl prompt templates now).error = none ∧
      resultErrorExclusive (intelligentJobData jobId imageUrl prompt templates now)) ∧
    (∀ oldId job now, wfJob job → job.status ≠ .completed →
      ((handleRetryIntelligentMockup oldId job now).2.status = .pending ∧
       (handleRetryIntelligentMockup oldId job now).2.result_url = none ∧
       (handleRetryIntelligentMockup oldId job now).2.resultUrl = none ∧
       (handleRetryIntelligentMockup oldId job now).2.error = none ∧
       resultErrorExclusive (handleRetryIntelligentMockup oldId job now).2)) ∧
    (∀ j ref t, resultErrorExclusive (orchestratorComplete j ref t)) ∧
    (∀ j e t, resultErrorExclusive (orchestratorFail j e t)) := by
  refine ⟨?_, ?_, ?_, ?_⟩
  · intro jobId imageUrl prompt templates now
    refine ⟨rfl, rfl, rfl, rfl, ?_, ?_⟩ <;> intro h <;> simp [intelligentJobData] at h
  · intro oldId job now hwf hnc
    have hres : job.result_url = none := by
      cases hcase : job.result_url with
      | none => rfl
      | some v => exact absurd (hwf.1 (by simp [hcase])) hnc
    refine ⟨rfl, hres, rfl, rfl, ?_, ?_⟩ <;> intro h <;>
      simp [handleRetryIntelligentMockup] at h
  · intro j ref t
    refine ⟨fun _ => ⟨rfl, rfl⟩, ?_⟩
    intro h
    simp [orchestratorComplete] at h
  · intro j e t
    refine ⟨?_, fun _ => ⟨rfl, rfl⟩⟩
    intro h
    simp [orchestratorFail] at h

/-- C2, witness: the retry of a concrete well-formed failed job yields a
document satisfying the exclusivity invariant. -/
theorem c2_result_error_exclusive_witness :
    resultErrorExclusive ((handleRetryIntelligentMockup "job-1"
      { status := .failed, error := some ⟨"timeout", "slow", none⟩ } 3).2) :=
  (c2_result_error_exclusive.2.1 "job-1"
    { status := .failed, error := some ⟨"timeout", "slow", none⟩ } 3
    (by unfold wfJob; decide) (by decide)).2.2.2.2

/-- C4, counterexample: the cancel action on a job stuck mid processing
is `handleRetryIntelligentMockup`, which marks the old job retried, not
failed, and the program has no Cancelled error kind at all: neither the
message table nor the declared kind list knows a cancelled kind. -/
theorem c4_counterexample :
    ((handleRetryIntelligentMockup "job-2"
        { status := .processing, processingStartTime := some 1 } 9).1.status
      = IMStatus.retried) ∧
    IMStatus.retried ≠ IMStatus.failed ∧
    errorMessagesLookup "cancelled" = none ∧
    "cancelled" ∉ INTELLIGENT_MOCKUP_ERRORS := by
  exact ⟨rfl, by decide, by decide, by decide⟩

/-- C4, amended: a cancel request issued while a job is mid processing
(the Cancel and Retry action) does not leave the job stuck in
processing, but it marks the old job retried rather than failed — the
program has no Cancelled error kind — and creates a replacement pending
job; under the recorded transition relation nothing follows the retried
state, so no completed transition occurs for the old job afterwards. -/
theorem c4_cancel_amended (oldId : String) (job : IMJobDoc) (now : Nat)
    (h : job.status = .processing) :
    ((handleRetryIntelligentMockup oldId job now).1.status = .retried) ∧
    ((handleRetryIntelligentMockup oldId job now).1.status ≠ .processing) ∧
    ((handleRetryIntelligentMockup oldId job now).1.status ≠ .failed) ∧
    ((handleRetryIntelligentMockup oldId job now).2.status = .pending) ∧
    (∀ b : IMStatus, ¬ StatusStep .retried b) ∧
    ("cancelled" ∉ INTELLIGENT_MOCKUP_ERRORS) := by
  refine ⟨rfl, by simp [handleRetryIntelligentMockup], by simp [handleRetryIntelligentMockup],
    rfl, ?_, by decide⟩
  intro b hb
  nomatch hb

/-- C4, witness: the amended statement at a concrete stuck-processing
job. -/
theorem c4_cancel_amended_witness :
    ((handleRetryIntelligentMockup "job-3"
        { status := IMStatus.processing, processingStartTime := some 2 } 11).1.status
      = IMStatus.retried) ∧
    ("cancelled" ∉ INTELLIGENT_MOCKUP_ERRORS) := by
  have h := c4_cancel_amended "job-3"
    { status := IMStatus.processing, processingStartTime := some 2 } 11 rfl
  exact ⟨h.1, h.2.2.2.2.2⟩

/-- Helper: a batch whose files all validate is stored in full, in
order, with no error. -/
theorem handleFileUpload_all_valid (now : Nat) :
    ∀ (files : List UploadFile) (s : UploadState),
      (∀ f ∈ files, validateUploadFile f = none) →
      handleFileUpload now s files =
        ({ storage := s.storage ++ files.map (fun f => (storagePathFor now f, f.content))
           docs := s.docs ++ files.map (uploadedDocFor now) }, none) := by
  intro files
  induction files with
  | nil =>
    intro s _
    simp [handleFileUpload]
  | cons f rest ih =>
    intro s h
    have hf : validateUploadFile f = none := h f (by simp)
    have hrest : ∀ g ∈ rest, validateUploadFile g = none := fun g hg => h g (by simp [hg])
    rw [handleFileUpload, hf]
    rw [ih (storeUploadFile now s f) hrest]
    simp [storeUploadFile]

/-- Helper: the first invalid file aborts the batch; files before it
stay stored, it and everything after it are not stored. -/
theorem handleFileUpload_aborts (now : Nat) :
    ∀ (pre : List UploadFile) (s : UploadState) (f : UploadFile) (post : List UploadFile)
      (msg : String),
      (∀ g ∈ pre, validateUploadFile g = none) →
      validateUploadFile f = some msg →
      handleFileUpload now s (pre ++ f :: post) =
        ({ storage := s.storage ++ pre.map (fun g => (storagePathFor now g, g.content))
           docs := s.docs ++ pre.map (uploadedDocFor now) },
         some ("Failed to upload: " ++ msg)) := by
  intro pre
  induction pre with
  | nil =>
    intro s f post msg _ hf
    rw [List.nil_append, handleFileUpload, hf]
    simp
  | cons g gs ih =>
    intro s f post msg hpre hf
    have hg : validateUploadFile g = none := hpre g (by simp)
    rw [List.cons_append, handleFileUpload, hg]
    rw [ih (storeUploadFile now s g) f post msg (fun x hx => hpre x (by simp [hx])) hf]
    simp [storeUploadFile]

/-- C5: image content crosses the upload boundary only as a reference.
A validated file's raw bytes are appended to the blob store under the
built storage path, and the metadata document written to the collection
carries only the download URL of that path (its fields are the display
name, file name, URL string and timestamp); likewise an intelligent job
document carries the artwork URL string and the template document id it
was given, never byte content. -/
theorem c5_references_only (now : Nat) (s : UploadState) (f : UploadFile)
    (h : validateUploadFile f = none) :
    ((handleFileUpload now s [f]).1.storage
      = s.storage ++ [(storagePathFor now f, f.content)]) ∧
    ((handleFileUpload now s [f]).1.docs = s.docs ++ [uploadedDocFor now f]) ∧
    ((uploadedDocFor now f).imageUrl = downloadURLFor (storagePathFor now f)) ∧
    (∀ jobId imageUrl prompt templates now2,
      (intelligentJobData jobId imageUrl prompt templates now2).artwork_url = some imageUrl ∧
      (intelligentJobData jobId imageUrl prompt templates now2).mockup_template
        = some (firstTemplateId templates)) := by
  have hrun := handleFileUpload_all_valid now [f] s (by simpa using h)
  rw [hrun]
  exact ⟨by simp, by simp, rfl, fun _ _ _ _ _ => ⟨rfl, rfl⟩⟩

/-- C5, witness: a concrete valid file lands in the blob store and its
document references it by URL. -/
theorem c5_references_only_witness :
    ((handleFileUpload 1 ⟨[], []⟩ [⟨"art.png", "image/png", 5, [7]⟩]).1.storage
      = [("mockups/1_art.png", [7])]) ∧
    ((handleFileUpload 1 ⟨[], []⟩ [⟨"art.png", "image/png", 5, [7]⟩]).1.docs
      = [⟨"art", "art.png", "https://firebasestorage.googleapis.com/mockups/1_art.png", 1⟩]) := by
  have h := c5_references_only 1 ⟨[], []⟩ ⟨"art.png", "image/png", 5, [7]⟩ (by decide)
  exact ⟨h.1.trans (by decide), h.2.1.trans (by decide)⟩

/-- C6, counterexample: in the submission consisting of a text file
followed by a PNG within both bounds, the handler rejects the first file
and aborts, so the second file — although within both bounds — is never
stored: the claim that every file within both bounds is accepted and
stored is false. -/
theorem c6_counterexample :
    validateUploadFile ⟨"art.png", "image/png", 5, [1]⟩ = none ∧
    (handleFileUpload 0 ⟨[], []⟩
      [⟨"notes.txt", "text/plain", 5, [0]⟩, ⟨"art.png", "image/png", 5, [1]⟩]).1
      = ⟨[], []⟩ ∧
    (handleFileUpload 0 ⟨[], []⟩
      [⟨"notes.txt", "text/plain", 5, [0]⟩, ⟨"art.png", "image/png", 5, [1]⟩]).2
      = some "Failed to upload: File notes.txt must be JPEG, PNG, or WebP format" := by
  exact ⟨by decide, by decide, by decide⟩

/-- C6, amended: a file fails validation exactly when its MIME type is
outside the allowed image formats or its size exceeds the 10 MB cap; a
batch whose files are all within both bounds is accepted and stored in
full; and the first invalid file of a batch is rejected with the
descriptive error and not stored, aborting the rest of the batch while
the valid files before it remain stored. -/
theorem c6_upload_validation (now : Nat) (s : UploadState) :
    (∀ f : UploadFile, validateUploadFile f = none ↔
      (f.type ∈ ALLOWED_FILE_TYPES ∧ f.size ≤ FILE_SIZE_LIMIT_BYTES)) ∧
    (∀ files : List UploadFile, (∀ f ∈ files, validateUploadFile f = none) →
      handleFileUpload now s files =
        ({ storage := s.storage ++ files.map (fun f => (storagePathFor now f, f.content))
           docs := s.docs ++ files.map (uploadedDocFor now) }, none)) ∧
    (∀ (pre : List UploadFile) (f : UploadFile) (post : List UploadFile) (msg : String),
      (∀ g ∈ pre, validateUploadFile g = none) →
      validateUploadFile f = some msg →
      handleFileUpload now s (pre ++ f :: post) =
        ({ storage := s.storage ++ pre.map (fun g => (storagePathFor now g, g.content))
           docs := s.docs ++ pre.map (uploadedDocFor now) },
         some ("Failed to upload: " ++ msg))) := by
  refine ⟨?_, ?_, ?_⟩
  · intro f
    constructor
    · intro h
      by_cases h1 : f.type ∈ ALLOWED_FILE_TYPES
      · refine ⟨h1, ?_⟩
        by_contra hle
        have h2 : FILE_SIZE_LIMIT_BYTES < f.size := Nat.lt_of_not_le (fun hc => hle hc)
        simp [validateUploadFile, h1, h2] at h
      · simp [validateUploadFile, h1] at h
    · rintro ⟨h1, h2⟩
      simp [validateUploadFile, h1, Nat.not_lt.mpr h2]
  · intro files h
    exact handleFileUpload_all_valid now files s h
  · intro pre f post msg hpre hf
    exact handleFileUpload_aborts now pre s f post msg hpre hf

/-- C6, witness: the amended statement at a concrete two-file batch (a
valid PNG before an oversized JPEG). -/
theorem c6_upload_validation_witness :
    handleFileUpload 2 ⟨[], []⟩
      [⟨"a.png", "image/png", 3, [1]⟩, ⟨"big.jpg", "image/jpeg", 10485761, [2]⟩]
      = (⟨[("mockups/2_a.png", [1])],
          [⟨"a", "a.png", "https://firebasestorage.googleapis.com/mockups/2_a.png", 2⟩]⟩,
         some "Failed to upload: File big.jpg is too large. Maximum size is 10MB") := by
  have h := (c6_upload_validation 2 ⟨[], []⟩).2.2
    [⟨"a.png", "image/png", 3, [1]⟩] ⟨"big.jpg", "image/jpeg", 10485761, [2]⟩ []
    "File big.jpg is too large. Maximum size is 10MB" (by decide) (by decide)
  exact (rfl :
      handleFileUpload 2 ⟨[], []⟩
        [⟨"a.png", "image/png", 3, [1]⟩, ⟨"big.jpg", "image/jpeg", 10485761, [2]⟩]
      = handleFileUpload 2 ⟨[], []⟩
        ([⟨"a.png", "image/png", 3, [1]⟩] ++
          (⟨"big.jpg", "image/jpeg", 10485761, [2]⟩ : UploadFile) :: [])).trans
    (h.trans (by decide))

/-- C7: on a decodable template on which the detector's filtered region
list is empty, the modelled pipeline selects the deterministic fallback
region — the largest centered rectangle a margin inside the template
bounds — labels it fallback, and the run still completes instead of
failing (the margin is configuration and is assumed to leave the
rectangle non-degenerate). -/
theorem c7_fallback_completion (margin : Nat) (t : SpecTemplate)
    (hdec : t.decodable = true)
    (hempty : filterAllowed t.regions = [])
    (hw : 2 * margin < t.width) (hh : 2 * margin < t.height) :
    selectRegion margin t = .ok (fallbackRegion margin t) ∧
    (fallbackRegion margin t).label = "fallback" ∧
    runPipeline margin t
      = .completed "fallback" (composeResultRef t (fallbackRegion margin t)) := by
  have hsel : selectRegion margin t = .ok (fallbackRegion margin t) := by
    simp [selectRegion, hdec, hempty, rankRegions]
  have harea : ¬ (fallbackRegion margin t).bbox.area = 0 := by
    have h1 : 0 < t.width - margin - margin := by omega
    have h2 : 0 < t.height - margin - margin := by omega
    simp only [fallbackRegion, BBox.area]
    exact Nat.mul_ne_zero (Nat.pos_iff_ne_zero.mp h1) (Nat.pos_iff_ne_zero.mp h2)
  refine ⟨hsel, rfl, ?_⟩
  have hrun : runPipeline margin t =
      if (fallbackRegion margin t).bbox.area = 0 then .failed "invalid_geometry"
      else .completed (fallbackRegion margin t).label
        (composeResultRef t (fallbackRegion margin t)) := by
    unfold runPipeline
    rw [hsel]
  rw [hrun, if_neg harea]
  exact rfl

/-- C7, witness: a decodable 100 by 80 template on which the detector
reports nothing completes through the fallback region. -/
theorem c7_fallback_completion_witness :
    runPipeline 10 ⟨true, 100, 80, []⟩
      = .completed "fallback"
          (composeResultRef ⟨true, 100, 80, []⟩ (fallbackRegion 10 ⟨true, 100, 80, []⟩)) := by
  have h := c7_fallback_completion 10 ⟨true, 100, 80, []⟩ rfl rfl (by decide) (by decide)
  exact h.2.2

/-- Helper: the error message table is populated at exactly the four
declared kinds. -/
theorem errorMessagesLookup_cases (t : String) (h : ¬ errorMessagesLookup t = none) :
    t = "timeout" ∨ t = "detection_failed" ∨ t = "grpc_error" ∨ t = "unknown" := by
  by_contra hc
  push_neg at hc
  obtain ⟨h1, h2, h3, h4⟩ := hc
  simp [errorMessagesLookup, h1, h2, h3, h4] at h

/-- C8, counterexample: for the concrete failed job whose stored error
has the unrecognized kind internal_crash and a raw traceback message,
the failed card's displayed texts contain the raw internal exception
text (the helper falls back to `error.message`) and do not contain the
machine-readable kind anywhere: both the never-exposes-raw-text clause
and the shows-the-machine-readable-kind clause of the claim are false
at this input. -/
theorem c8_counterexample :
    errorMessagesLookup "internal_crash" = none ∧
    ("Traceback: ValueError in warp_perspective line 42" ∈
      failedCardTexts
        { status := .failed
          error := some ⟨"internal_crash",
            "Traceback: ValueError in warp_perspective line 42", none⟩ }) ∧
    ("internal_crash" ∉
      failedCardTexts
        { status := .failed
          error := some ⟨"internal_crash",
            "Traceback: ValueError in warp_perspective line 42", none⟩ }) := by
  exact ⟨by decide, by decide, by decide⟩

/-- C8, amended: the failed card shows the capitalized job status and a
human-readable message with suggested actions; the machine-readable
kind is not rendered (for a recognized kind with no stored details it
appears nowhere among the displayed texts); the message is canned when
the error value is missing or its kind is recognized, while for an
unrecognized kind it falls back to the error's own raw message text
when that is non-empty — raw internal exception text can therefore be
exposed — and to the canned unknown message otherwise. -/
theorem c8_error_display_amended :
    (getIntelligentMockupErrorMessage none = "An unknown error occurred. Please try again.") ∧
    (∀ (e : IMJobError) (m : String), errorMessagesLookup e.type = some m →
      getIntelligentMockupErrorMessage (some e) = m) ∧
    (∀ e : IMJobError, errorMessagesLookup e.type = none → e.message ≠ "" →
      getIntelligentMockupErrorMessage (some e) = e.message) ∧
    (∀ e : IMJobError, errorMessagesLookup e.type = none → e.message = "" →
      getIntelligentMockupErrorMessage (some e) = unknownKindMessage) ∧
    (∀ j : IMJobDoc, statusTagText j.status ∈ failedCardTexts j) ∧
    (∀ j : IMJobDoc, getIntelligentMockupErrorMessage j.error ∈ failedCardTexts j) ∧
    (∀ (st : IMStatus) (ty msg : String), ¬ errorMessagesLookup ty = none →
      ty ∉ failedCardTexts { status := st, error := some ⟨ty, msg, none⟩ }) ∧
    (statusTagText .pending = "Pending" ∧ statusTagText .processing = "Processing" ∧
      statusTagText .completed = "Completed" ∧ statusTagText .failed = "Failed" ∧
      statusTagText .retried = "Retried") := by
  refine ⟨rfl, ?_, ?_, ?_, ?_, ?_, ?_, ?_⟩
  · intro e m h
    simp [getIntelligentMockupErrorMessage, h]
  · intro e h hm
    simp [getIntelligentMockupErrorMessage, h, hm]
  · intro e h hm
    simp [getIntelligentMockupErrorMessage, h, hm]
  · intro j
    simp [failedCardTexts]
  · intro j
    simp [failedCardTexts]
  · intro st ty msg h
    rcases errorMessagesLookup_cases ty h with h1 | h1 | h1 | h1 <;> subst h1 <;>
      cases st <;>
      simp [failedCardTexts, getIntelligentMockupErrorMessage, errorMessagesLookup,
        getErrorSuggestedActions, suggestedActionsLookup, statusTagText, capFirst,
        IMStatus.str, timeoutKindMessage, detectionFailedKindMessage, grpcErrorKindMessage,
        unknownKindMessage]
  · exact ⟨by decide, by decide, by decide, by decide, by decide⟩

/-- C8, witness: for a concrete failed job with the recognized kind
timeout, the card shows the canned message (not the stored raw
message), and the kind itself is not among the displayed texts. -/
theorem c8_error_display_amended_witness :
    (getIntelligentMockupErrorMessage (some ⟨"timeout", "socket closed by peer", none⟩)
      = timeoutKindMessage) ∧
    ("timeout" ∉ failedCardTexts
      { status := IMStatus.failed
        error := some ⟨"timeout", "socket closed by peer", none⟩ }) :=
  ⟨c8_error_display_amended.2.1 ⟨"timeout", "socket closed by peer", none⟩
      timeoutKindMessage (by decide),
   c8_error_display_amended.2.2.2.2.2.2.1 IMStatus.failed "timeout" "socket closed by peer"
      (by decide)⟩

/-- C9: a successfully submitted mockup generation request of either
kind auto-approves the source art job: the submission still reports
success when the approve update fails, and when it succeeds only the
status field of the source job changes (every other field is carried
over unchanged by the merge write) while every other document of the
jobs store is untouched; a missing source document stays missing. -/
theorem c9_auto_approve (jobId imageUrl prompt : String) (mockupType : MockupType)
    (templates : List TemplateDoc) (jobs : String → Option ArtJob) (now : Nat)
    (approveFails : Bool)
    (hurl : ¬ (imageUrl = "" ∨ imageUrl = "undefined" ∨ imageUrl = "null"))
    (htpl : ¬ templates = []) :
    ((handleGenerateMockups jobId imageUrl prompt mockupType templates jobs now
        approveFails).outcome = .submitted mockupType) ∧
    (approveFails = true →
      (handleGenerateMockups jobId imageUrl prompt mockupType templates jobs now
        approveFails).jobs = jobs) ∧
    (approveFails = false →
      (∀ k, ¬ k = jobId →
        (handleGenerateMockups jobId imageUrl prompt mockupType templates jobs now
          approveFails).jobs k = jobs k) ∧
      (jobs jobId = none →
        (handleGenerateMockups jobId imageUrl prompt mockupType templates jobs now
          approveFails).jobs jobId = none) ∧
      (∀ j : ArtJob, jobs jobId = some j →
        (handleGenerateMockups jobId imageUrl prompt mockupType templates jobs now
          approveFails).jobs jobId = some { j with status := JOB_STATUS_APPROVED })) := by
  unfold handleGenerateMockups
  rw [if_neg hurl, if_neg htpl]
  cases mockupType <;> cases approveFails <;>
    refine ⟨rfl, ?_, ?_⟩ <;> intro h
  case simple.false.refine_1 => exact absurd h (by decide)
  case simple.false.refine_2 =>
    refine ⟨fun k hk => ?_, fun hnone => ?_, fun j hj => ?_⟩
    · simp [updateJobStatus, hk]
    · simp [updateJobStatus, hnone]
    · simp [updateJobStatus, hj]
  case simple.true.refine_1 => rfl
  case simple.true.refine_2 => exact absurd h (by decide)
  case intelligent.false.refine_1 => exact absurd h (by decide)
  case intelligent.false.refine_2 =>
    refine ⟨fun k hk => ?_, fun hnone => ?_, fun j hj => ?_⟩
    · simp [updateJobStatus, hk]
    · simp [updateJobStatus, hnone]
    · simp [updateJobStatus, hj]
  case intelligent.true.refine_1 => rfl
  case intelligent.true.refine_2 => exact absurd h (by decide)

/-- C9, witness: a concrete intelligent submission approves the source
job and changes nothing else of it. -/
theorem c9_auto_approve_witness :
    (handleGenerateMockups "art-1" "https://storage/a.png" "a prompt" .intelligent
      [⟨"tpl-1"⟩]
      (fun k => if k = "art-1"
        then some ⟨"a prompt", "pending_review", none, 0, none, none, none⟩ else none)
      2 false).jobs "art-1"
      = some ⟨"a prompt", "approved", none, 0, none, none, none⟩ := by
  have h := c9_auto_approve "art-1" "https://storage/a.png" "a prompt" .intelligent
    [⟨"tpl-1"⟩]
    (fun k => if k = "art-1"
      then some ⟨"a prompt", "pending_review", none, 0, none, none, none⟩ else none)
    2 false (by decide) (by decide)
  have h2 := (h.2.2 rfl).2.2 ⟨"a prompt", "pending_review", none, 0, none, none, none⟩
    (by decide)
  exact h2.trans (by decide)

/-- C10: with an empty template collection the submission reports an
error and writes no job document of either kind; with templates present
and a usable image URL, the intelligent path writes exactly one job
whose `mockup_template` is the first template document's id, with the
literal default substituted when that id is empty, whatever the number
of templates. -/
theorem c10_template_selection :
    (∀ jobId imageUrl prompt mockupType jobs now approveFails,
      ((handleGenerateMockups jobId imageUrl prompt mockupType [] jobs now
          approveFails).newIntelligentJobs = []) ∧
      ((handleGenerateMockups jobId imageUrl prompt mockupType [] jobs now
          approveFails).newMockupJobs = []) ∧
      (∀ t : MockupType,
        ¬ (handleGenerateMockups jobId imageUrl prompt mockupType [] jobs now
            approveFails).outcome = .submitted t)) ∧
    (∀ jobId imageUrl prompt templates jobs now approveFails,
      ¬ (imageUrl = "" ∨ imageUrl = "undefined" ∨ imageUrl = "null") →
      ¬ templates = [] →
      ((handleGenerateMockups jobId imageUrl prompt .intelligent templates jobs now
          approveFails).newIntelligentJobs
        = [intelligentJobData jobId imageUrl prompt templates now]) ∧
      ((intelligentJobData jobId imageUrl prompt templates now).mockup_template
        = some (firstTemplateId templates))) ∧
    (∀ (t : TemplateDoc) (ts : List TemplateDoc),
      firstTemplateId (t :: ts) = if t.id = "" then "default" else t.id) := by
  refine ⟨?_, ?_, ?_⟩
  · intro jobId imageUrl prompt mockupType jobs now approveFails
    unfold handleGenerateMockups
    by_cases hurl : imageUrl = "" ∨ imageUrl = "undefined" ∨ imageUrl = "null"
    · rw [if_pos hurl]
      exact ⟨rfl, rfl, fun t h => nomatch h⟩
    · rw [if_neg hurl, if_pos rfl]
      exact ⟨rfl, rfl, fun t h => nomatch h⟩
  · intro jobId imageUrl prompt templates jobs now approveFails hurl htpl
    unfold handleGenerateMockups
    rw [if_neg hurl, if_neg htpl]
    exact ⟨rfl, rfl⟩
  · intro t ts
    rfl

/-- C10, witness: with two templates present the created job points at
the first one's id. -/
theorem c10_template_selection_witness :
    ((handleGenerateMockups "a" "https://u" "p" .intelligent [⟨"tpl-9"⟩, ⟨"tpl-8"⟩]
        (fun _ => none) 4 true).newIntelligentJobs
      = [intelligentJobData "a" "https://u" "p" [⟨"tpl-9"⟩, ⟨"tpl-8"⟩] 4]) ∧
    ((intelligentJobData "a" "https://u" "p" [⟨"tpl-9"⟩, ⟨"tpl-8"⟩] 4).mockup_template
      = some "tpl-9") := by
  have h := c10_template_selection.2.1 "a" "https://u" "p" [⟨"tpl-9"⟩, ⟨"tpl-8"⟩]
    (fun _ => none) 4 true (by decide) (by decide)
  exact ⟨h.1, h.2.trans (by decide)⟩
